import Mathlib

/-!
# Verification of the Aztec validator monitor core (`src/bot.py`)

Shallow embedding of the stateful event-detection and notification engine of
`src/bot.py`: the per-entity event detector and watermark update inside
`check_for_updates` (attestations and proposals), the queue-activation
debouncer, the ETA estimator `estimate_activation_time` with its helper
`_format_days_hours_from_minutes`, and the persistence helpers
`save_json_file` / `load_json_file`.

Modelling conventions:
* Slots are natural numbers (`att.get('slot', 0)` defaults to `0`); they are
  compared against natural-number watermarks exactly as the source does.
* Telegram `bot.send_message` calls are modelled as emitted alert values; the
  markdown/emoji decoration of the message text is not modelled, only the
  title chosen by the status lookup and the slot quoted in the message.
* Python string `.lower()` is modelled character-wise with `Char.toLower`
  (the statuses involved are ASCII).
* Python `math.ceil` of an exact true division `a / b` (with `b > 0`) is
  modelled by the integer ceiling division `-((-a) / b)`; the theorem
  `Bot.ceilDiv_eq_ceil` proves it equal to the rational ceiling.
* Network fetches are inputs: `fetch_validator_data` failure is `none`, and
  the value `fetch_queue_info` returns from its `except` branch is the
  explicit record `queueFetchFailure`.
-/

namespace Bot

/-- Lowercasing as used by `(…).lower()` in the source, modelled
character-wise (all statuses involved are ASCII). -/
def strLower (s : String) : String :=
  String.mk (s.data.map Char.toLower)

/-- One raw event record as consumed by `check_for_updates`:
`slot` from `att.get('slot', 0)` / `prop.get('slot', 0)` and `status` from
`att.get('status', 'N/A')` / `prop.get('status')` (bot.py lines 369–372 and
389–392). -/
structure EventRecord where
  slot : Nat
  status : String
deriving DecidableEq

/-- The payload of one `bot.send_message` call made by the event detector:
the title chosen by the status lookup and the slot quoted in the message
(markdown decoration omitted). -/
structure Notification where
  title : String
  slot : Nat
deriving DecidableEq

/-- Status→title table of the attestation loop (bot.py lines 374–379). -/
def attTitle (status : String) : String :=
  if status == "Success" then "Attestation Succeeded"
  else if status == "Missed" then "Attestation Missed"
  else "Attestation Update"

/-- Status→title table of the proposal loop (bot.py lines 392–402); the
status is lowercased first, a missing status being read as `''`. -/
def propTitle (status : String) : String :=
  let s := strLower status
  if s == "block-proposed" then "Block Proposed"
  else if s == "block-mined" then "Block Mined"
  else if s == "block-missed" then "Block Missed"
  else "Block Update"

/-- The shared shape of the attestation loop (bot.py lines 367–384) and the
proposal loop (lines 387–407): walk the fetched records in order; every
record whose slot exceeds `w` — the watermark read *before* the loop —
produces one notification, and `maxNew` tracks the running maximum of
qualifying slots (`if slot > max_new: max_new = slot`). -/
def eventLoop (titleOf : String → String) (w : Nat) :
    List EventRecord → Nat → List Notification × Nat
  | [], maxNew => ([], maxNew)
  | r :: rs, maxNew =>
    if w < r.slot then
      let maxNew' := if maxNew < r.slot then r.slot else maxNew
      let rest := eventLoop titleOf w rs maxNew'
      (⟨titleOf r.status, r.slot⟩ :: rest.1, rest.2)
    else
      eventLoop titleOf w rs maxNew

/-- The attestation section of `check_for_updates` (lines 367–384): returns
the emitted notifications, in emission order, and the value stored back into
`state["latest_attestation_slot"]`. -/
def processAttestations (w : Nat) (recs : List EventRecord) :
    List Notification × Nat :=
  eventLoop attTitle w recs w

/-- The proposal section of `check_for_updates` (lines 387–407). -/
def processProposals (w : Nat) (recs : List EventRecord) :
    List Notification × Nat :=
  eventLoop propTitle w recs w

/-- Per-entity state record persisted in `last_state.json` (bot.py lines
355–361). -/
structure EntityState where
  latest_attestation_slot : Nat
  latest_proposal_slot : Nat
  queue_position : Option Int
  activation_confirmations : Nat
  activated_notified : Bool
deriving DecidableEq

/-- The all-zero/false default created for an address first seen by the
poller (bot.py lines 355–361). -/
def defaultState : EntityState :=
  { latest_attestation_slot := 0
    latest_proposal_slot := 0
    queue_position := none
    activation_confirmations := 0
    activated_notified := false }

/-- Both watermarks of a state, for monotonicity/preservation statements. -/
def watermarks (s : EntityState) : Nat × Nat :=
  (s.latest_attestation_slot, s.latest_proposal_slot)

/-- The dictionary returned by `fetch_queue_info` (bot.py lines 182–249);
the `raw` field is never read by `check_for_updates` and is omitted. -/
structure QueueInfo where
  position : Option Int
  status : Option String
  found : Bool
deriving DecidableEq

/-- What `fetch_queue_info` returns from its `except` branch (bot.py line
249): `{'position': None, 'status': None, 'raw': {}, 'found': False}`. -/
def queueFetchFailure : QueueInfo :=
  { position := none, status := none, found := false }

/-- A successful lookup that does not find the address in the queue
(bot.py lines 214 and 245). -/
def obsActive : QueueInfo :=
  { position := none, status := some "not-in-queue", found := false }

/-- A successful lookup that finds the address at queue position `p`
(bot.py lines 211 and 241). -/
def obsQueued (p : Int) : QueueInfo :=
  { position := some p, status := some "in-queue", found := true }

/-- `is_active_like = ((qinfo.get('status') or '').lower() == 'not-in-queue')`
(bot.py lines 412–414). -/
def isActiveLike (q : QueueInfo) : Bool :=
  strLower (q.status.getD "") == "not-in-queue"

/-- The queue-activation section of `check_for_updates` (bot.py lines
409–430) applied to one fetched `QueueInfo`: stores the observed position,
updates the debounce counter, and fires at most one activation alert
(returned as the `Bool`). -/
def queueStep (s : EntityState) (q : QueueInfo) : EntityState × Bool :=
  let s1 := { s with queue_position := q.position }
  let s2 :=
    if isActiveLike q then
      { s1 with activation_confirmations := s1.activation_confirmations + 1 }
    else
      { s1 with activation_confirmations := 0, activated_notified := false }
  if 2 ≤ s2.activation_confirmations ∧ s2.activated_notified = false then
    ({ s2 with activated_notified := true }, true)
  else
    (s2, false)

/-- The two fields of the `fetch_validator_data` response that
`check_for_updates` reads (`recentAttestations`, `proposalHistory`); a field
missing from the JSON is the empty list, as with `data.get(…, [])`. -/
structure ValidatorData where
  recentAttestations : List EventRecord
  proposalHistory : List EventRecord
deriving DecidableEq

/-- One outbound Telegram message of the auto-check, by kind. -/
inductive Alert where
  | attestation : Notification → Alert
  | proposal : Notification → Alert
  | activated : Alert
deriving DecidableEq

/-- One iteration of the `for address in validators` loop of
`check_for_updates` (bot.py lines 354–432) for a single entity: the
attestation/proposal sections run only when `fetch_validator_data`
succeeded (`v ≠ none`), then the queue section always runs.  Returns the
updated state and the alerts sent for this entity, in emission order. -/
def processEntity (s : EntityState) (v : Option ValidatorData) (q : QueueInfo) :
    EntityState × List Alert :=
  let step1 : EntityState × List Alert :=
    match v with
    | none => (s, [])
    | some d =>
      let att := processAttestations s.latest_attestation_slot d.recentAttestations
      let prop := processProposals s.latest_proposal_slot d.proposalHistory
      ({ s with latest_attestation_slot := att.2, latest_proposal_slot := prop.2 },
        att.1.map Alert.attestation ++ prop.1.map Alert.proposal)
  let qs := queueStep step1.1 q
  (qs.1, step1.2 ++ if qs.2 then [Alert.activated] else [])

/-- A sequence of auto-check cycles seen by one entity: each cycle supplies
that cycle's `fetch_validator_data` result and `fetch_queue_info` result. -/
def runCycles (s : EntityState) :
    List (Option ValidatorData × QueueInfo) → EntityState
  | [] => s
  | i :: rest => runCycles (processEntity s i.1 i.2).1 rest

/-- A sequence of queue observations fed to the debouncer alone (bot.py
lines 409–430), returning the final state and the number of activation
alerts fired along the way. -/
def runQueueSteps (s : EntityState) : List QueueInfo → EntityState × Nat
  | [] => (s, 0)
  | q :: rest =>
    let r := queueStep s q
    let t := runQueueSteps r.1 rest
    (t.1, (if r.2 then 1 else 0) + t.2)

/-- The full `for address in validators` loop of `check_for_updates`
(bot.py lines 354–432) over the in-memory `last_state` mapping, with the
per-address fetch results supplied as functions.  Alerts are tagged with
the address they were sent for. -/
def checkLoop (fV : String → Option ValidatorData) (fQ : String → QueueInfo) :
    List String → (String → Option EntityState) →
    (String → Option EntityState) × List (String × Alert)
  | [], last => (last, [])
  | a :: rest, last =>
    let s0 := (last a).getD defaultState
    let res := processEntity s0 (fV a) (fQ a)
    let tail := checkLoop fV fQ rest (fun x => if x = a then some res.1 else last x)
    (tail.1, res.2.map (fun al => (a, al)) ++ tail.2)

/-- `check_for_updates` (bot.py lines 341–435) as a state transformer on the
in-memory state mapping: load, process every watched address, and return the
mapping that is saved back plus all alerts sent.  (The early return on an
empty watch list leaves the mapping unchanged and sends nothing, which is
what `checkLoop` also does on `[]`.) -/
def check_for_updates (validators : List String)
    (fV : String → Option ValidatorData) (fQ : String → QueueInfo)
    (last : String → Option EntityState) :
    (String → Option EntityState) × List (String × Alert) :=
  checkLoop fV fQ validators last

/-- The alerts of one cycle that were sent for address `b`. -/
def alertsFor (b : String) (l : List (String × Alert)) : List (String × Alert) :=
  l.filter (fun p => p.1 == b)

/-! ## ETA estimator (bot.py lines 252–277) -/

/-- Integer ceiling division: the value of Python's
`math.ceil(a / b)` on integers with `b > 0`, where `/` is exact true
division (see `ceilDiv_eq_ceil`). -/
def ceilDiv (a b : Int) : Int :=
  -((-a) / b)

/-- The stats dictionary produced by `fetch_queue_stats` (bot.py lines
136–166): both values are ints after the fallback/coercion logic. -/
structure QueueStats where
  epoch_minutes : Int
  validators_per_epoch : Int
deriving DecidableEq

/-- `DEFAULT_EPOCH_MINUTES = 38`, `DEFAULT_VALIDATORS_PER_EPOCH = 4`
(bot.py lines 44–45). -/
def defaultStats : QueueStats :=
  { epoch_minutes := 38, validators_per_epoch := 4 }

/-- `_format_days_hours_from_minutes` (bot.py lines 252–264): ceil to the
nearest hour, render as `'X days Y hours'` or `'X hours'`. -/
def format_days_hours_from_minutes (total_minutes : Int) : String :=
  if total_minutes ≤ 0 then "0 hours"
  else
    let hours := ceilDiv total_minutes 60
    let days := hours / 24
    let rem_hours := hours % 24
    let parts : List String :=
      (if 0 < days then
        [toString days ++ " day" ++ (if days ≠ 1 then "s" else "")]
       else []) ++
      (if 0 < rem_hours ∨ days = 0 then
        [toString rem_hours ++ " hour" ++ (if rem_hours ≠ 1 then "s" else "")]
       else [])
    String.intercalate " " parts

/-- The triple returned by `estimate_activation_time` (bot.py lines
266–277).  The absolute timestamp `now + timedelta(minutes=minutes_wait)`
is represented by its offset from `now` in minutes; `eta_minutes = none`
models the `'-'` placeholder returned when the entity is classified as
already active. -/
structure EtaResult where
  text : String
  eta_minutes : Option Int
  epochs_wait : Int
deriving DecidableEq

/-- `estimate_activation_time` (bot.py lines 266–277). -/
def estimate_activation_time (position : Option Int) (stats : QueueStats) :
    EtaResult :=
  match position with
  | none => { text := "Active (not in queue)", eta_minutes := none, epochs_wait := 0 }
  | some p =>
    if p ≤ 0 then
      { text := "Active (not in queue)", eta_minutes := none, epochs_wait := 0 }
    else
      let vpe := stats.validators_per_epoch
      let epoch_min := stats.epoch_minutes
      let epochs_wait := ceilDiv (p - 1) (max vpe 1)
      let minutes_wait := epochs_wait * epoch_min
      { text := format_days_hours_from_minutes minutes_wait
        eta_minutes := some minutes_wait
        epochs_wait := epochs_wait }

/-! ## Persistence (bot.py lines 78–101)

`save_json_file` is
`with open(filename, 'w', …) as f: json.dump(data, f, indent=4)`:
opening with mode `'w'` truncates the file in place, then the new JSON is
written into the same file.  We model the file contents observable at a
crash as `Option StateJson`: `none` is the truncated (or partially
written) file, which `json.load` fails to parse, and `some m` is a fully
written state map `m`.  `load_json_file` returns its `default_value` on
`FileNotFoundError`/`JSONDecodeError` (lines 78–85); `load_last_state`
passes the empty map as that default (line 98). -/

/-- The persisted state map, as stored in `last_state.json`. -/
abbrev StateJson := List (String × EntityState)

/-- The sequence of observable on-disk contents during `save_json_file`
(bot.py lines 87–89): first the truncation performed by `open(…, 'w')`,
then the completed `json.dump`.  There is no side file and no atomic
rename. -/
def save_json_file_states (data : StateJson) : List (Option StateJson) :=
  [none, some data]

/-- `load_json_file` (bot.py lines 78–85): parse the file, falling back to
`default_value` when the file is absent or unparsable. -/
def load_json_file (content : Option StateJson) (default_value : StateJson) :
    StateJson :=
  content.getD default_value

/-! ## Lemmas about the event detector -/

lemma le_foldl_max (l : List Nat) : ∀ m : Nat, m ≤ l.foldl max m := by
  induction l with
  | nil => intro m; simp
  | cons a l ih => intro m; exact le_trans (le_max_left m a) (ih (max m a))

lemma mem_le_foldl_max (l : List Nat) : ∀ m : Nat, ∀ x ∈ l, x ≤ l.foldl max m := by
  induction l with
  | nil => simp
  | cons a l ih =>
    intro m x hx
    rcases List.mem_cons.mp hx with h | h
    · subst h
      exact le_trans (le_max_right m x) (le_foldl_max l (max m x))
    · exact ih (max m a) x h

/-- The notifications emitted by one event loop: one per record whose slot
exceeds the watermark read before the loop, in the order the records were
fetched, titled by the status table. -/
lemma eventLoop_fst (t : String → String) (w : Nat) (recs : List EventRecord) :
    ∀ m : Nat,
      (eventLoop t w recs m).1 =
        (recs.filter (fun r => w < r.slot)).map
          (fun r => { title := t r.status, slot := r.slot }) := by
  induction recs with
  | nil => intro m; simp [eventLoop]
  | cons r rs ih =>
    intro m
    by_cases h : w < r.slot <;> simp [eventLoop, h, ih]

/-- The value the event loop stores back as the watermark: the running
maximum of the initial accumulator and all qualifying slots. -/
lemma eventLoop_snd (t : String → String) (w : Nat) (recs : List EventRecord) :
    ∀ m : Nat,
      (eventLoop t w recs m).2 =
        ((recs.filter (fun r => w < r.slot)).map EventRecord.slot).foldl max m := by
  induction recs with
  | nil => intro m; simp [eventLoop]
  | cons r rs ih =>
    intro m
    by_cases h : w < r.slot
    · have hmax : (if m < r.slot then r.slot else m) = max m r.slot := by
        split <;> omega
      simp [eventLoop, h, ih, hmax]
    · simp [eventLoop, h, ih]

lemma eventLoop_snd_ge (t : String → String) (w : Nat) (recs : List EventRecord)
    (m : Nat) : m ≤ (eventLoop t w recs m).2 := by
  rw [eventLoop_snd]
  exact le_foldl_max _ m

/-- Every slot of the fetched history is at most the stored watermark after
the loop (when the loop started from accumulator `w` itself). -/
lemma eventLoop_slot_le_snd (t : String → String) (w : Nat)
    (recs : List EventRecord) (r : EventRecord) (hr : r ∈ recs) :
    r.slot ≤ (eventLoop t w recs w).2 := by
  by_cases h : w < r.slot
  · rw [eventLoop_snd]
    refine mem_le_foldl_max _ w r.slot ?_
    exact List.mem_map_of_mem _ (List.mem_filter.mpr ⟨hr, by simpa using h⟩)
  · exact le_trans (Nat.le_of_not_lt h) (eventLoop_snd_ge t w recs w)

/-- A history with no slot above the watermark produces nothing and leaves
the accumulator untouched. -/
lemma eventLoop_all_le (t : String → String) (w : Nat) (recs : List EventRecord)
    (hall : ∀ r ∈ recs, r.slot ≤ w) : ∀ m : Nat, eventLoop t w recs m = ([], m) := by
  induction recs with
  | nil => intro m; simp [eventLoop]
  | cons r rs ih =>
    intro m
    have hr : ¬ w < r.slot := Nat.not_lt.mpr (hall r (List.mem_cons_self r rs))
    simp only [eventLoop, if_neg hr]
    exact ih (fun x hx => hall x (List.mem_cons_of_mem r hx)) m

/-! ## Lemmas about the debouncer and the per-entity cycle -/

/-- Explicit case split of `queueStep`. -/
lemma queueStep_eq (s : EntityState) (q : QueueInfo) :
    queueStep s q =
      if isActiveLike q then
        (if 2 ≤ s.activation_confirmations + 1 ∧ s.activated_notified = false then
          ({ s with
              queue_position := q.position
              activation_confirmations := s.activation_confirmations + 1
              activated_notified := true }, true)
        else
          ({ s with
              queue_position := q.position
              activation_confirmations := s.activation_confirmations + 1 }, false))
      else
        ({ s with
            queue_position := q.position
            activation_confirmations := 0
            activated_notified := false }, false) := by
  unfold queueStep
  by_cases h : isActiveLike q <;> simp [h]

lemma queueStep_watermarks (s : EntityState) (q : QueueInfo) :
    watermarks (queueStep s q).1 = watermarks s := by
  rw [queueStep_eq]
  split_ifs <;> rfl

lemma queueStep_confirmations (s : EntityState) (q : QueueInfo) :
    (queueStep s q).1.activation_confirmations =
      if isActiveLike q then s.activation_confirmations + 1 else 0 := by
  rw [queueStep_eq]
  split_ifs <;> rfl

lemma queueStep_not_active (s : EntityState) (q : QueueInfo)
    (h : isActiveLike q = false) :
    (queueStep s q).1.activated_notified = false := by
  rw [queueStep_eq]
  simp [h]

lemma queueStep_notified_invariant (s : EntityState) (q : QueueInfo)
    (hs : s.activated_notified = true → 2 ≤ s.activation_confirmations) :
    (queueStep s q).1.activated_notified = true →
      2 ≤ (queueStep s q).1.activation_confirmations := by
  rw [queueStep_eq]
  split_ifs with h1 h2 <;> intro hn <;> simp_all <;> omega

/-- Once notified, a further active-like observation keeps the flag set,
increments the counter, and fires no alert. -/
lemma queueStep_active_notified (s : EntityState)
    (hn : s.activated_notified = true) :
    (queueStep s obsActive).1.activated_notified = true ∧
      (queueStep s obsActive).2 = false := by
  rw [queueStep_eq]
  simp [hn, isActiveLike, obsActive, strLower]

lemma processEntity_none (s : EntityState) (q : QueueInfo) :
    processEntity s none q = ((queueStep s q).1, if (queueStep s q).2 then [Alert.activated] else []) := by
  rfl

lemma processEntity_watermarks_mono (s : EntityState) (v : Option ValidatorData)
    (q : QueueInfo) :
    s.latest_attestation_slot ≤ (processEntity s v q).1.latest_attestation_slot ∧
      s.latest_proposal_slot ≤ (processEntity s v q).1.latest_proposal_slot := by
  cases v with
  | none =>
    have h := queueStep_watermarks s q
    simp only [processEntity_none, watermarks, Prod.mk.injEq] at *
    omega
  | some d =>
    unfold processEntity
    dsimp only
    constructor
    · have h := queueStep_watermarks
        { s with
          latest_attestation_slot :=
            (processAttestations s.latest_attestation_slot d.recentAttestations).2,
          latest_proposal_slot :=
            (processProposals s.latest_proposal_slot d.proposalHistory).2 } q
      simp only [watermarks, Prod.mk.injEq] at h
      have := eventLoop_snd_ge attTitle s.latest_attestation_slot
        d.recentAttestations s.latest_attestation_slot
      simp only [processAttestations] at *
      omega
    · have h := queueStep_watermarks
        { s with
          latest_attestation_slot :=
            (processAttestations s.latest_attestation_slot d.recentAttestations).2,
          latest_proposal_slot :=
            (processProposals s.latest_proposal_slot d.proposalHistory).2 } q
      simp only [watermarks, Prod.mk.injEq] at h
      have := eventLoop_snd_ge propTitle s.latest_proposal_slot
        d.proposalHistory s.latest_proposal_slot
      simp only [processProposals] at *
      omega

lemma processEntity_none_watermarks (s : EntityState) (q : QueueInfo) :
    watermarks (processEntity s none q).1 = watermarks s := by
  rw [processEntity_none]
  exact queueStep_watermarks s q

lemma runCycles_watermarks_mono (l : List (Option ValidatorData × QueueInfo)) :
    ∀ s : EntityState,
      s.latest_attestation_slot ≤ (runCycles s l).latest_attestation_slot ∧
        s.latest_proposal_slot ≤ (runCycles s l).latest_proposal_slot := by
  induction l with
  | nil => intro s; simp [runCycles]
  | cons i rest ih =>
    intro s
    have h1 := processEntity_watermarks_mono s i.1 i.2
    have h2 := ih (processEntity s i.1 i.2).1
    simp only [runCycles]
    omega

lemma runCycles_invariant (P : EntityState → Prop)
    (hstep : ∀ s v q, P s → P (processEntity s v q).1) :
    ∀ (l : List (Option ValidatorData × QueueInfo)) (s : EntityState),
      P s → P (runCycles s l) := by
  intro l
  induction l with
  | nil => intro s hs; simpa [runCycles] using hs
  | cons i rest ih =>
    intro s hs
    exact ih _ (hstep s i.1 i.2 hs)

/-! ## Lemmas about the full per-cycle loop -/

/-- An address whose `fetch_validator_data` fails keeps its watermarks
through the whole cycle (a fresh entry starts at the default zeros). -/
lemma checkLoop_fail_watermarks (fV : String → Option ValidatorData)
    (fQ : String → QueueInfo) (x : String) (hx : fV x = none) :
    ∀ (vs : List String) (last : String → Option EntityState),
      watermarks (((checkLoop fV fQ vs last).1 x).getD defaultState) =
        watermarks ((last x).getD defaultState) := by
  intro vs
  induction vs with
  | nil => intro last; rfl
  | cons a rest ih =>
    intro last
    simp only [checkLoop]
    rw [ih]
    by_cases hxa : x = a
    · subst hxa
      simp only [if_pos rfl, Option.getD_some, hx]
      exact processEntity_none_watermarks _ _
    · simp only [if_neg hxa]

/-- Processing of address `b` is isolated: its resulting state entry and its
alerts depend only on its own stored state and its own fetch results. -/
lemma checkLoop_isolated (fV fV' : String → Option ValidatorData)
    (fQ fQ' : String → QueueInfo) (b : String)
    (hV : fV b = fV' b) (hQ : fQ b = fQ' b) :
    ∀ (vs : List String) (last last' : String → Option EntityState),
      last b = last' b →
        (checkLoop fV fQ vs last).1 b = (checkLoop fV' fQ' vs last').1 b ∧
          alertsFor b (checkLoop fV fQ vs last).2 =
            alertsFor b (checkLoop fV' fQ' vs last').2 := by
  intro vs
  induction vs with
  | nil =>
    intro last last' hb
    exact ⟨hb, rfl⟩
  | cons a rest ih =>
    intro last last' hb
    simp only [checkLoop]
    by_cases hab : a = b
    · subst hab
      have hres :
          processEntity ((last a).getD defaultState) (fV a) (fQ a) =
            processEntity ((last' a).getD defaultState) (fV' a) (fQ' a) := by
        rw [hb, hV, hQ]
      have hnext : (fun x => if x = a then
            some (processEntity ((last a).getD defaultState) (fV a) (fQ a)).1
          else last x) a =
          (fun x => if x = a then
            some (processEntity ((last' a).getD defaultState) (fV' a) (fQ' a)).1
          else last' x) a := by
        simp [hres]
      obtain ⟨h1, h2⟩ := ih
        (fun x => if x = a then
          some (processEntity ((last a).getD defaultState) (fV a) (fQ a)).1
        else last x)
        (fun x => if x = a then
          some (processEntity ((last' a).getD defaultState) (fV' a) (fQ' a)).1
        else last' x) hnext
      refine ⟨h1, ?_⟩
      simp only [alertsFor, List.filter_append] at *
      rw [h2, hres]
    · have hnext : (fun x => if x = a then
            some (processEntity ((last a).getD defaultState) (fV a) (fQ a)).1
          else last x) b =
          (fun x => if x = a then
            some (processEntity ((last' a).getD defaultState) (fV' a) (fQ' a)).1
          else last' x) b := by
        have hba : ¬ b = a := fun h => hab h.symm
        simp [hba, hb]
      obtain ⟨h1, h2⟩ := ih
        (fun x => if x = a then
          some (processEntity ((last a).getD defaultState) (fV a) (fQ a)).1
        else last x)
        (fun x => if x = a then
          some (processEntity ((last' a).getD defaultState) (fV' a) (fQ' a)).1
        else last' x) hnext
      refine ⟨h1, ?_⟩
      have hfa : (a == b) = false := by
        simp [hab]
      simp only [alertsFor, List.filter_append, List.filter_map] at *
      have hnil₁ :
          List.filter ((fun p => p.1 == b) ∘ fun al => ((a : String), al))
            (processEntity ((last a).getD defaultState) (fV a) (fQ a)).2 = [] := by
        simp [Function.comp, hfa]
      have hnil₂ :
          List.filter ((fun p => p.1 == b) ∘ fun al => ((a : String), al))
            (processEntity ((last' a).getD defaultState) (fV' a) (fQ' a)).2 = [] := by
        simp [Function.comp, hfa]
      rw [hnil₁, hnil₂, h2]

/-! ## Remaining helper lemmas -/

/-- `ceilDiv` is the exact rational ceiling, i.e. the value of Python
`math.ceil(a / b)` under exact arithmetic, for positive divisors. -/
lemma ceilDiv_eq_ceil (a b : Int) (hb : 0 < b) :
    ceilDiv a b = Int.ceil ((a : ℚ) / (b : ℚ)) := by
  have hb' : ((b.toNat : ℤ)) = b := Int.toNat_of_nonneg hb.le
  have hbq : ((b.toNat : ℕ) : ℚ) = ((b : ℤ) : ℚ) := by
    exact_mod_cast hb'
  have h2 : ((-a : ℤ) : ℚ) / ((b.toNat : ℕ) : ℚ) = -((a : ℚ) / (b : ℚ)) := by
    rw [hbq]
    push_cast
    ring
  have h3 := Rat.floor_intCast_div_natCast (-a) b.toNat
  rw [h2, Int.floor_neg, hb'] at h3
  unfold ceilDiv
  omega

/-- Replaying a slot-subset of an already-processed history from the
resulting watermark emits nothing and keeps the watermark. -/
lemma eventLoop_replay (t : String → String) (w : Nat) (h h' : List EventRecord)
    (hsub : ∀ r ∈ h', ∃ r0 ∈ h, r0.slot = r.slot) :
    eventLoop t (eventLoop t w h w).2 h' ((eventLoop t w h w).2) =
      ([], (eventLoop t w h w).2) := by
  refine eventLoop_all_le t _ h' ?_ _
  intro r hr
  obtain ⟨r0, hr0, heq⟩ := hsub r hr
  rw [← heq]
  exact eventLoop_slot_le_snd t w h r0 hr0

/-- `queueStep` reads only the debounce fields of the state, so two states
agreeing on them produce the same debounce fields and the same alert. -/
lemma queueStep_congr (s s' : EntityState) (q : QueueInfo)
    (hc : s.activation_confirmations = s'.activation_confirmations)
    (hn : s.activated_notified = s'.activated_notified) :
    (queueStep s q).1.activation_confirmations =
        (queueStep s' q).1.activation_confirmations ∧
      (queueStep s q).1.activated_notified = (queueStep s' q).1.activated_notified ∧
      (queueStep s q).2 = (queueStep s' q).2 := by
  rw [queueStep_eq, queueStep_eq, hc, hn]
  split_ifs <;> simp_all

/-- The implication `activated_notified → confirmations ≥ 2` is preserved by
one full per-entity cycle. -/
lemma processEntity_notified_invariant (s : EntityState) (v : Option ValidatorData)
    (q : QueueInfo)
    (hs : s.activated_notified = true → 2 ≤ s.activation_confirmations) :
    (processEntity s v q).1.activated_notified = true →
      2 ≤ (processEntity s v q).1.activation_confirmations := by
  cases v with
  | none => simpa [processEntity_none] using queueStep_notified_invariant s q hs
  | some d =>
    intro hres
    have hcong := queueStep_congr
      { s with
          latest_attestation_slot :=
            (processAttestations s.latest_attestation_slot d.recentAttestations).2
          latest_proposal_slot :=
            (processProposals s.latest_proposal_slot d.proposalHistory).2 }
      s q rfl rfl
    have h1 : (processEntity s (some d) q).1 =
        (queueStep
          { s with
              latest_attestation_slot :=
                (processAttestations s.latest_attestation_slot d.recentAttestations).2
              latest_proposal_slot :=
                (processProposals s.latest_proposal_slot d.proposalHistory).2 } q).1 := rfl
    rw [h1] at hres ⊢
    rw [hcong.1]
    refine queueStep_notified_invariant s q hs ?_
    rw [← hcong.2.1]
    exact hres

/-- Once notified, any number of further active-like observations fires no
activation alert. -/
lemma runQueueSteps_active_no_alert (n : Nat) :
    ∀ s : EntityState, s.activated_notified = true →
      (runQueueSteps s (List.replicate n obsActive)).2 = 0 := by
  induction n with
  | zero => intro s _; rfl
  | succ n ih =>
    intro s hs
    obtain ⟨h1, h2⟩ := queueStep_active_notified s hs
    simp [runQueueSteps, List.replicate_succ, h2, ih _ h1]

/-- `n` consecutive active-like observations add exactly `n` to the
confirmation counter. -/
lemma runQueueSteps_active_conf (n : Nat) :
    ∀ s : EntityState,
      (runQueueSteps s (List.replicate n obsActive)).1.activation_confirmations =
        s.activation_confirmations + n := by
  induction n with
  | zero => intro s; rfl
  | succ n ih =>
    intro s
    have h := queueStep_confirmations s obsActive
    have hact : isActiveLike obsActive = true := by decide
    rw [hact, if_pos rfl] at h
    simp only [List.replicate_succ, runQueueSteps, ih, h]
    omega

/-! ## Claim theorems -/

/-- C1, counterexample: for attestation records with slots `[5, 3, 7]` and
watermark `0`, `check_for_updates` emits the notifications in fetched-list
order `5, 3, 7`, not in ascending slot order `3, 5, 7` as claimed — the
code never sorts the history. -/
theorem c1_counterexample :
    (processAttestations 0
        [⟨5, "Success"⟩, ⟨3, "Success"⟩, ⟨7, "Success"⟩]).1.map Notification.slot =
        [5, 3, 7] ∧
      (processAttestations 0
        [⟨5, "Success"⟩, ⟨3, "Success"⟩, ⟨7, "Success"⟩]).1.map Notification.slot ≠
        [3, 5, 7] := by
  decide

/-- C1, amended: for every event history (attestations or proposals, i.e.
any status→title table `t`) with watermark `w`, the detector emits exactly
one notification per record with `slot > w`, **in the order the records
appear in the fetched list** (not sorted), each titled via the status
lookup; the stored watermark afterwards is the maximum of `w` and all
qualifying slots — hence the maximum qualifying slot when one exists and
`w` unchanged otherwise.  For slots `[5, 3, 7]` and watermark `0` the
emission order is `5, 3, 7` and the new watermark is `7`. -/
theorem c1_emission_in_fetch_order :
    (∀ (t : String → String) (w : Nat) (recs : List EventRecord),
      (eventLoop t w recs w).1 =
          (recs.filter (fun r => w < r.slot)).map
            (fun r => { title := t r.status, slot := r.slot }) ∧
        (eventLoop t w recs w).2 =
          ((recs.filter (fun r => w < r.slot)).map EventRecord.slot).foldl max w) ∧
      (processAttestations 0
          [⟨5, "Success"⟩, ⟨3, "Success"⟩, ⟨7, "Success"⟩]).1.map Notification.slot =
          [5, 3, 7] ∧
      (processAttestations 0 [⟨5, "Success"⟩, ⟨3, "Success"⟩, ⟨7, "Success"⟩]).2 = 7 := by
  refine ⟨fun t w recs => ⟨eventLoop_fst t w recs w, eventLoop_snd t w recs w⟩, by decide, by decide⟩

/-- C2, counterexample: an entity whose `fetch_validator_data` and
`fetch_queue_info` both fail in a cycle is *not* left unchanged: the queue
section still runs, sets `queue_position` to `None` and resets
`activation_confirmations` and `activated_notified`. -/
theorem c2_counterexample :
    (check_for_updates ["0xa"] (fun _ => none) (fun _ => queueFetchFailure)
        (fun x => if x = "0xa" then some ⟨10, 20, some 5, 1, false⟩ else none)).1 "0xa" ≠
      some ⟨10, 20, some 5, 1, false⟩ := by
  decide

/-- C2, amended: an entity whose `fetch_validator_data` fails keeps both
watermarks unchanged through the cycle, but is not skipped: the queue
section still runs (and a queue-fetch failure resets the debounce fields,
see `c2_counterexample`).  Failures are isolated per entity: the resulting
state entry and the alerts for any address `b` depend only on `b`'s own
stored state and `b`'s own fetch results, never on another entity's
failures. -/
theorem c2_failure_isolation :
    (∀ (fV : String → Option ValidatorData) (fQ : String → QueueInfo)
        (vs : List String) (last : String → Option EntityState) (x : String),
      fV x = none →
        watermarks (((check_for_updates vs fV fQ last).1 x).getD defaultState) =
          watermarks ((last x).getD defaultState)) ∧
      (∀ (fV fV' : String → Option ValidatorData) (fQ fQ' : String → QueueInfo)
          (vs : List String) (last last' : String → Option EntityState) (b : String),
        fV b = fV' b → fQ b = fQ' b → last b = last' b →
          (check_for_updates vs fV fQ last).1 b = (check_for_updates vs fV' fQ' last').1 b ∧
            alertsFor b (check_for_updates vs fV fQ last).2 =
              alertsFor b (check_for_updates vs fV' fQ' last').2) := by
  constructor
  · intro fV fQ vs last x hx
    exact checkLoop_fail_watermarks fV fQ x hx vs last
  · intro fV fV' fQ fQ' vs last last' b hV hQ hb
    exact checkLoop_isolated fV fV' fQ fQ' b hV hQ vs last last' hb

/-- Witness for `c2_failure_isolation` at concrete inputs: one watched
address whose validator fetch fails, and a bystander address `0xb` whose
results are unaffected when `0xa`'s fetch outcomes change. -/
theorem c2_failure_isolation_witness :
    (watermarks (((check_for_updates ["0xa"] (fun _ => none)
          (fun _ => queueFetchFailure) (fun _ => none)).1 "0xa").getD defaultState) =
        watermarks (((fun _ => (none : Option EntityState)) "0xa").getD defaultState)) ∧
      ((check_for_updates ["0xa"] (fun _ => none) (fun _ => queueFetchFailure)
            (fun _ => none)).1 "0xb" =
          (check_for_updates ["0xa"]
            (fun x => if x = "0xa" then some ⟨[⟨9, "Success"⟩], []⟩ else none)
            (fun x => if x = "0xa" then obsActive else queueFetchFailure)
            (fun _ => none)).1 "0xb" ∧
        alertsFor "0xb" (check_for_updates ["0xa"] (fun _ => none)
            (fun _ => queueFetchFailure) (fun _ => none)).2 =
          alertsFor "0xb" (check_for_updates ["0xa"]
            (fun x => if x = "0xa" then some ⟨[⟨9, "Success"⟩], []⟩ else none)
            (fun x => if x = "0xa" then obsActive else queueFetchFailure)
            (fun _ => none)).2) :=
  ⟨c2_failure_isolation.1 _ _ ["0xa"] _ "0xa" rfl,
    c2_failure_isolation.2 _ _ _ _ ["0xa"] _ _ "0xb" (by decide) (by decide) rfl⟩

/-- C3: both watermarks are monotonically non-decreasing across any single
cycle and any sequence of cycles (arbitrary fetched histories and queue
results, including failures), and a cycle whose validator-data fetch fails
leaves both watermarks exactly unchanged. -/
theorem c3_watermark_monotonicity :
    (∀ (s : EntityState) (v : Option ValidatorData) (q : QueueInfo),
      s.latest_attestation_slot ≤ (processEntity s v q).1.latest_attestation_slot ∧
        s.latest_proposal_slot ≤ (processEntity s v q).1.latest_proposal_slot) ∧
      (∀ (s : EntityState) (l : List (Option ValidatorData × QueueInfo)),
        s.latest_attestation_slot ≤ (runCycles s l).latest_attestation_slot ∧
          s.latest_proposal_slot ≤ (runCycles s l).latest_proposal_slot) ∧
      (∀ (s : EntityState) (q : QueueInfo),
        watermarks (processEntity s none q).1 = watermarks s) :=
  ⟨processEntity_watermarks_mono, fun s l => runCycles_watermarks_mono l s,
    processEntity_none_watermarks⟩

/-- C4: the activation debouncer from the default (`InQueue`) state: one
active-like observation yields `confirmations = 1` and no alert; a second
consecutive one yields `confirmations = 2`, exactly one alert, and
`notified = true`; a subsequent "still queued" observation resets
`confirmations = 0`, `notified = false`, with no alert; and after
`notified` became true, any number of further active-like observations
fires no further alert. -/
theorem c4_debounce_correctness :
    (queueStep defaultState obsActive).1.activation_confirmations = 1 ∧
      (queueStep defaultState obsActive).2 = false ∧
      (queueStep (queueStep defaultState obsActive).1
          obsActive).1.activation_confirmations = 2 ∧
      (queueStep (queueStep defaultState obsActive).1 obsActive).2 = true ∧
      (queueStep (queueStep defaultState obsActive).1
          obsActive).1.activated_notified = true ∧
      (queueStep (queueStep (queueStep defaultState obsActive).1 obsActive).1
          (obsQueued 7)).1.activation_confirmations = 0 ∧
      (queueStep (queueStep (queueStep defaultState obsActive).1 obsActive).1
          (obsQueued 7)).1.activated_notified = false ∧
      (queueStep (queueStep (queueStep defaultState obsActive).1 obsActive).1
          (obsQueued 7)).2 = false ∧
      ∀ n : Nat,
        (runQueueSteps (queueStep (queueStep defaultState obsActive).1 obsActive).1
          (List.replicate n obsActive)).2 = 0 := by
  refine ⟨by decide, by decide, by decide, by decide, by decide, by decide, by decide,
    by decide, fun n => runQueueSteps_active_no_alert n _ (by decide)⟩

/-- C5: event notification is idempotent across cycles: if a second cycle
fetches a history whose slots all already occurred in the previous cycle's
history (identical or subset), the second cycle emits zero notifications
and leaves the watermark unchanged — for the attestation detector and the
proposal detector alike. -/
theorem c5_idempotent_replay (wA : Nat) (hA hA' : List EventRecord)
    (wP : Nat) (hP hP' : List EventRecord)
    (hsubA : ∀ r ∈ hA', ∃ r0 ∈ hA, r0.slot = r.slot)
    (hsubP : ∀ r ∈ hP', ∃ r0 ∈ hP, r0.slot = r.slot) :
    processAttestations (processAttestations wA hA).2 hA' =
        ([], (processAttestations wA hA).2) ∧
      processProposals (processProposals wP hP).2 hP' =
        ([], (processProposals wP hP).2) :=
  ⟨eventLoop_replay attTitle wA hA hA' hsubA,
    eventLoop_replay propTitle wP hP hP' hsubP⟩

/-- Witness for `c5_idempotent_replay`: replaying the identical one-record
histories emits nothing and keeps the watermarks. -/
theorem c5_idempotent_replay_witness :
    processAttestations (processAttestations 0 [⟨5, "Success"⟩]).2 [⟨5, "Success"⟩] =
        ([], (processAttestations 0 [⟨5, "Success"⟩]).2) ∧
      processProposals (processProposals 0 [⟨4, "block-mined"⟩]).2 [⟨4, "block-mined"⟩] =
        ([], (processProposals 0 [⟨4, "block-mined"⟩]).2) :=
  c5_idempotent_replay 0 [⟨5, "Success"⟩] [⟨5, "Success"⟩]
    0 [⟨4, "block-mined"⟩] [⟨4, "block-mined"⟩] (by decide) (by decide)

/-- C6: `estimate_activation_time` classifies `position = None` and
`position ≤ 0` as already active (wait `0`, no timestamp); for `p > 0` it
computes `epochs_wait = ceil((p − 1) / max(vpe, 1))` (exact rational
ceiling) and a wait of `epochs_wait * epoch_minutes` minutes; concretely
`position=1, vpe=4, epoch=38` gives `epochs_wait = 0`, wait `0` minutes,
and `position=5, vpe=4, epoch=38` gives `epochs_wait = 1`, wait `38`
minutes. -/
theorem c6_eta_estimator :
    (∀ stats : QueueStats,
      estimate_activation_time none stats =
        { text := "Active (not in queue)", eta_minutes := none, epochs_wait := 0 }) ∧
      (∀ (p : Int) (stats : QueueStats), p ≤ 0 →
        estimate_activation_time (some p) stats =
          { text := "Active (not in queue)", eta_minutes := none, epochs_wait := 0 }) ∧
      (∀ (p : Int) (stats : QueueStats), 0 < p →
        (estimate_activation_time (some p) stats).epochs_wait =
            Int.ceil (((p - 1 : Int) : ℚ) /
              ((max stats.validators_per_epoch 1 : Int) : ℚ)) ∧
          (estimate_activation_time (some p) stats).eta_minutes =
            some ((estimate_activation_time (some p) stats).epochs_wait *
              stats.epoch_minutes)) ∧
      (estimate_activation_time (some 1) defaultStats).epochs_wait = 0 ∧
      (estimate_activation_time (some 1) defaultStats).eta_minutes = some 0 ∧
      (estimate_activation_time (some 5) defaultStats).epochs_wait = 1 ∧
      (estimate_activation_time (some 5) defaultStats).eta_minutes = some 38 := by
  refine ⟨fun stats => rfl, ?_, ?_, by decide, by decide, by decide, by decide⟩
  · intro p stats hp
    simp [estimate_activation_time, hp]
  · intro p stats hp
    have hnle : ¬ p ≤ 0 := not_le.mpr hp
    have hmax : (0 : Int) < max stats.validators_per_epoch 1 :=
      lt_of_lt_of_le zero_lt_one (le_max_right _ 1)
    constructor
    · simp only [estimate_activation_time, if_neg hnle]
      exact ceilDiv_eq_ceil _ _ hmax
    · simp [estimate_activation_time, if_neg hnle]

/-- Witness for `c6_eta_estimator`: the `p ≤ 0` branch at `p = 0` and the
general formula at `p = 5` with the default stats. -/
theorem c6_eta_estimator_witness :
    estimate_activation_time (some 0) defaultStats =
        { text := "Active (not in queue)", eta_minutes := none, epochs_wait := 0 } ∧
      (estimate_activation_time (some 5) defaultStats).epochs_wait =
        Int.ceil (((5 - 1 : Int) : ℚ) /
          ((max defaultStats.validators_per_epoch 1 : Int) : ℚ)) :=
  ⟨c6_eta_estimator.2.1 0 defaultStats (by decide),
    (c6_eta_estimator.2.2.1 5 defaultStats (by decide)).1⟩

/-- C7, counterexample: `save_json_file` truncates the target file in place
(`open(filename, 'w')`) before writing, so the truncated file — one of the
observable on-disk states of a save — does not load back as the previously
persisted state: a crash there loses it. -/
theorem c7_counterexample :
    none ∈ save_json_file_states [] ∧
      load_json_file none [] ≠ [("0xa", defaultState)] := by
  decide

/-- C7, amended: persisting the state map is a direct in-place write —
truncate, then write the new contents into the same file, with no side
file and no atomic swap — so for any previously persisted state different
from the load-time default there is a crash point during the save (the
truncated file) from which loading yields the default instead of that
state; only a completed save loads back as the newly written map. -/
theorem c7_inplace_write (old newData d : StateJson) (hne : old ≠ d) :
    (∃ c ∈ save_json_file_states newData, load_json_file c d ≠ old) ∧
      load_json_file (some newData) d = newData := by
  refine ⟨⟨none, by simp [save_json_file_states], ?_⟩, rfl⟩
  simp only [load_json_file, Option.getD_none]
  exact fun h => hne h.symm

/-- Witness for `c7_inplace_write` with a concrete non-default previous
state. -/
theorem c7_inplace_write_witness :
    (∃ c ∈ save_json_file_states [], load_json_file c [] ≠ [("0xa", defaultState)]) ∧
      load_json_file (some []) [] = [] :=
  c7_inplace_write [("0xa", defaultState)] [] [] (by decide)

/-- C8: over every state reachable by `check_for_updates` cycles from the
default, `activated_notified` is true only while
`activation_confirmations ≥ 2`; and any observation classified as still in
the queue sets `activated_notified` to false in that same cycle. -/
theorem c8_notified_invariant :
    (∀ l : List (Option ValidatorData × QueueInfo),
      (runCycles defaultState l).activated_notified = true →
        2 ≤ (runCycles defaultState l).activation_confirmations) ∧
      (∀ (s : EntityState) (q : QueueInfo), isActiveLike q = false →
        (queueStep s q).1.activated_notified = false) := by
  constructor
  · intro l
    exact runCycles_invariant
      (fun s => s.activated_notified = true → 2 ≤ s.activation_confirmations)
      processEntity_notified_invariant l defaultState (by intro h; cases h)
  · exact queueStep_not_active

/-- Witness for `c8_notified_invariant`: the notified state reached after
two active-like observations does satisfy the bound, and a queued
observation clears the flag. -/
theorem c8_notified_invariant_witness :
    2 ≤ (runCycles defaultState
        [((none : Option ValidatorData), obsActive), (none, obsActive)]).activation_confirmations ∧
      (queueStep defaultState (obsQueued 1)).1.activated_notified = false :=
  ⟨c8_notified_invariant.1 [(none, obsActive), (none, obsActive)] (by decide),
    c8_notified_invariant.2 defaultState (obsQueued 1) (by decide)⟩

/-- C9, counterexample: the confirmation counter is *not* bounded above by
the threshold 2 — three consecutive active-like observations from the
default state drive it to 3 (the code never caps the increment). -/
theorem c9_counterexample :
    2 < (runCycles defaultState
      (List.replicate 3 ((none : Option ValidatorData), obsActive))).activation_confirmations := by
  decide

/-- C9, amended: `activation_confirmations` is a non-negative counter equal
to the length of the current run of consecutive active-like observations:
each active-like observation adds exactly 1 (without any upper bound), any
other observation resets it to 0. -/
theorem c9_confirmations_unbounded :
    (∀ (s : EntityState) (q : QueueInfo),
      (queueStep s q).1.activation_confirmations =
        if isActiveLike q then s.activation_confirmations + 1 else 0) ∧
      (∀ (s : EntityState) (n : Nat),
        (runQueueSteps s (List.replicate n obsActive)).1.activation_confirmations =
          s.activation_confirmations + n) :=
  ⟨queueStep_confirmations, fun s n => runQueueSteps_active_conf n s⟩

/-- C10: de-duplication compares every record's slot against the watermark
as it stood at the start of the entity's loop — the emitted slots are
exactly the fetched slots greater than `w`, duplicates included — so a
history containing the same qualifying slot twice produces two
notifications for that slot within one cycle. -/
theorem c10_within_cycle_duplicates :
    (∀ (t : String → String) (w : Nat) (recs : List EventRecord),
      ((eventLoop t w recs w).1).map Notification.slot =
        (recs.map EventRecord.slot).filter (fun sl => w < sl)) ∧
      (processAttestations 0 [⟨5, "Success"⟩, ⟨5, "Missed"⟩]).1.map Notification.slot =
        [5, 5] := by
  refine ⟨?_, by decide⟩
  intro t w recs
  rw [eventLoop_fst, List.map_map, List.filter_map]
  rfl

end Bot
